import Mathlib

/-!
Verification of the schedule-normalization layer of the discord esports news
bot (`src/crawlers/schedule_crawling.py`), via a shallow embedding of the
Python code into Lean.

JSON values are modelled by `JVal` (floats do not occur in the behaviours
verified here, so numbers are `Int`).  Python runtime errors
(`AttributeError`, `TypeError`, `ValueError`) are modelled with `Except PyErr`;
a function that cannot raise is total.
-/

namespace Sched

/-- A parsed JSON value, as handed to the parsing layer by the transport. -/
inductive JVal where
  | null
  | bool (b : Bool)
  | num (n : Int)
  | str (s : String)
  | arr (elems : List JVal)
  | obj (fields : List (String × JVal))

/-- The Python exceptions that the embedded code can raise. -/
inductive PyErr where
  | attributeError
  | typeError
  | valueError
deriving Repr, DecidableEq

/-- Python truthiness: `None`, `False`, `0`, `""`, `[]` and an empty dict are
falsy, everything else is truthy. -/
def JVal.truthy : JVal → Bool
  | .null => false
  | .bool b => b
  | .num n => n != 0
  | .str s => s != ""
  | .arr [] => false
  | .arr (_ :: _) => true
  | .obj [] => false
  | .obj (_ :: _) => true

/-- Python `a or b`: `a` if `a` is truthy, else `b`. -/
def jor (a b : JVal) : JVal := if a.truthy then a else b

def JVal.isObj : JVal → Bool
  | .obj _ => true
  | _ => false

def JVal.isArr : JVal → Bool
  | .arr _ => true
  | _ => false

def JVal.isStr : JVal → Bool
  | .str _ => true
  | _ => false

def JVal.isNum : JVal → Bool
  | .num _ => true
  | _ => false

/-- The field list of a dict value (`[]` for non-dicts). -/
def JVal.fields : JVal → List (String × JVal)
  | .obj fs => fs
  | _ => []

/-- `d.get(k)` on a value known to be a dict: the stored value, or `None`
when the key is absent.  On a non-dict this returns `None`; it is only used
where the source has established the value is a dict (or in theorem
statements, where the dict-ness is a hypothesis). -/
def objGet (v : JVal) (k : String) : JVal :=
  ((v.fields.lookup k).getD .null)

/-- `d.get(k, default)` on a dict: the stored value (even if `None`), or the
default when the key is absent. -/
def objGetD (v : JVal) (k : String) (dflt : JVal) : JVal :=
  ((v.fields.lookup k).getD dflt)

/-- Whether a dict value has a key (`k in d`). -/
def JVal.hasKey (v : JVal) (k : String) : Bool :=
  (v.fields.lookup k).isSome

/-- `v.get(k)` where `v` may be any value: raises `AttributeError` when `v`
is not a dict, like Python does. -/
def pyGet (v : JVal) (k : String) : Except PyErr JVal :=
  match v with
  | .obj fs => .ok ((fs.lookup k).getD .null)
  | _ => .error .attributeError

/-- Python iteration `for x in v`: lists yield elements, strings yield their
characters as one-character strings, dicts yield their keys; any other value
raises `TypeError`. -/
def pyIter : JVal → Except PyErr (List JVal)
  | .arr xs => .ok xs
  | .str s => .ok (s.data.map fun c => .str (String.singleton c))
  | .obj fs => .ok (fs.map fun kv => .str kv.1)
  | _ => .error .typeError

/-- The ASCII single-quote character, used by `pyRepr` for string quoting. -/
def quoteChar : Char := Char.ofNat 39

mutual

/-- Python `repr()` of a JSON value (strings quoted; escape sequences inside
strings are not modelled — no behaviour verified here reprs a string that
contains a quote). -/
def pyRepr : JVal → String
  | .null => "None"
  | .bool true => "True"
  | .bool false => "False"
  | .num n => toString n
  | .str s => String.singleton quoteChar ++ s ++ String.singleton quoteChar
  | .arr xs => "[" ++ pyReprList xs ++ "]"
  | .obj fs => "\x7b" ++ pyReprFields fs ++ "\x7d"

def pyReprList : List JVal → String
  | [] => ""
  | [x] => pyRepr x
  | x :: xs => pyRepr x ++ ", " ++ pyReprList xs

def pyReprFields : List (String × JVal) → String
  | [] => ""
  | [(k, v)] => String.singleton quoteChar ++ k ++ String.singleton quoteChar ++ ": " ++ pyRepr v
  | (k, v) :: fs =>
      String.singleton quoteChar ++ k ++ String.singleton quoteChar ++ ": " ++ pyRepr v
        ++ ", " ++ pyReprFields fs

end

/-- Python `str()`: like `repr()` except that a string is returned unquoted. -/
def pyStr : JVal → String
  | .str s => s
  | v => pyRepr v

/-! ## Static tables (`schedule_crawling.py` lines 6-42) -/

/-- Candidate keys for a display team name, in priority order
(`_TEAM_NAME_KEYS`). -/
def _TEAM_NAME_KEYS : List String :=
  ["teamCode", "nameAcronym", "shortName", "nameEng", "name"]

/-- Candidate keys for a team logo URL, in priority order
(`_TEAM_IMG_KEYS`). -/
def _TEAM_IMG_KEYS : List String :=
  ["imageUrl", "colorImageUrl", "whiteImageUrl", "blackImageUrl"]

/-- Alias → standard key table (`VALORANT_LEAGUE_ALIAS`).  A Python dict with
string keys; all keys are distinct, so an association list with `lookup` has
the same semantics. -/
def VALORANT_LEAGUE_ALIAS : List (String × String) :=
  [("masters", "masters"), ("MASTER", "masters"), ("마스터스", "masters"),
   ("emea", "emea"), ("EMEA", "emea"),
   ("pacific", "pacific"), ("PACIFIC", "pacific"), ("퍼시픽", "pacific"),
   ("americas", "americas"), ("AMERICAS", "americas"), ("아메리카", "americas"),
   ("na", "na"), ("NA", "na"),
   ("japan", "japan"), ("JP", "japan"),
   ("brazil", "brazil"), ("BR", "brazil")]

/-- Standard key → serie id list table (`VALORANT_LEAGUE_IDS`). -/
def VALORANT_LEAGUE_IDS : List (String × List String) :=
  [("masters", ["608", "581"]),
   ("emea", ["624", "607", "585", "580", "564"]),
   ("pacific", ["622", "590", "566"]),
   ("na", ["601"]),
   ("americas", ["625", "584", "565"]),
   ("japan", ["623"]),
   ("brazil", ["633"])]

/-- Python `str.lower()`.  Only ASCII letters are case-mapped, which agrees
with CPython on every string appearing in the tables above (ASCII and Korean,
which has no case). -/
def pyLower (s : String) : String :=
  ⟨s.data.map fun c => if 'A' ≤ c ∧ c ≤ 'Z' then Char.ofNat (c.toNat + 32) else c⟩

/-! ## Field extractors (`_find_team_name`, `_find_team_img`) -/

/-- The `for key in keys: val = team.get(key); if val: return str(val)` loop
shared by `_find_team_name` and `_find_team_img`: the first truthy value
among the candidate keys. -/
def findFirstTruthy (fs : List (String × JVal)) : List String → Option JVal
  | [] => none
  | k :: ks =>
      let val := (fs.lookup k).getD .null
      if val.truthy then some val else findFirstTruthy fs ks

/-- `_find_team_name` (lines 256-271): `None` unless the argument is a dict;
otherwise `str()` of the first truthy candidate among `_TEAM_NAME_KEYS`. -/
def _find_team_name (team : JVal) : Option String :=
  match team with
  | .obj fs => (findFirstTruthy fs _TEAM_NAME_KEYS).map pyStr
  | _ => none

/-- `_find_team_img` (lines 497-514): `None` unless the argument is a dict;
otherwise `str()` of the first truthy candidate among `_TEAM_IMG_KEYS`. -/
def _find_team_img (team : JVal) : Option String :=
  match team with
  | .obj fs => (findFirstTruthy fs _TEAM_IMG_KEYS).map pyStr
  | _ => none

/-! ## Calendar arithmetic

Days-from-civil-date conversion and back (proleptic Gregorian, day 0 =
1970-01-01), with floor division so that every `Int` input is handled; used
to model `datetime.fromtimestamp` / `isoformat` / `fromisoformat`. -/

def daysFromCivil (y m d : Int) : Int :=
  let y := if m ≤ 2 then y - 1 else y
  let era := Int.fdiv y 400
  let yoe := y - era * 400
  let mp := Int.fmod (m + 9) 12
  let doy := Int.fdiv (153 * mp + 2) 5 + d - 1
  let doe := yoe * 365 + Int.fdiv yoe 4 - Int.fdiv yoe 100 + doy
  era * 146097 + doe - 719468

def civilFromDays (z : Int) : Int × Int × Int :=
  let z := z + 719468
  let era := Int.fdiv z 146097
  let doe := z - era * 146097
  let yoe := Int.fdiv (doe - Int.fdiv doe 1460 + Int.fdiv doe 36524 - Int.fdiv doe 146096) 365
  let y := yoe + era * 400
  let doy := doe - (365 * yoe + Int.fdiv yoe 4 - Int.fdiv yoe 100)
  let mp := Int.fdiv (5 * doy + 2) 153
  let d := doy - Int.fdiv (153 * mp + 2) 5 + 1
  let m := mp + (if mp < 10 then 3 else -9)
  (y + (if m ≤ 2 then 1 else 0), m, d)

/-- Decimal rendering of a nonnegative integer, left-padded with zeros. -/
def padNum (width : Nat) (n : Int) : String :=
  let s := toString n.toNat
  ⟨List.replicate (width - s.length) '0' ++ s.data⟩

/-- `datetime.isoformat()` of a timezone-aware instant: `epochSec`/`micro`
are the instant, `offMin` the tzinfo offset in minutes (the date/time fields
shown are local to that offset).  Microseconds are printed only when
nonzero, exactly as CPython does. -/
def isoformatAware (epochSec : Int) (micro : Int) (offMin : Int) : String :=
  let localSec := epochSec + offMin * 60
  let days := Int.fdiv localSec 86400
  let sod := Int.fmod localSec 86400
  let ymd := civilFromDays days
  let offAbs := if offMin < 0 then -offMin else offMin
  let offSign := if offMin < 0 then "-" else "+"
  padNum 4 ymd.1 ++ "-" ++ padNum 2 ymd.2.1 ++ "-" ++ padNum 2 ymd.2.2
    ++ "T" ++ padNum 2 (Int.fdiv sod 3600) ++ ":" ++ padNum 2 (Int.fmod (Int.fdiv sod 60) 60)
    ++ ":" ++ padNum 2 (Int.fmod sod 60)
    ++ (if micro = 0 then "" else "." ++ padNum 6 micro)
    ++ offSign ++ padNum 2 (Int.fdiv offAbs 60) ++ ":" ++ padNum 2 (Int.fmod offAbs 60)

/-- Year of the instant `epochSec` when viewed at offset `offMin`, used for
`datetime`'s supported-range (year 1..9999) check. -/
def yearAt (epochSec : Int) (offMin : Int) : Int :=
  (civilFromDays (Int.fdiv (epochSec + offMin * 60) 86400)).1

/-- `datetime.fromtimestamp(ms / 1000, tz=timezone.utc).isoformat()` for an
integral millisecond count: raises (`ValueError`, standing in for the
out-of-range errors `datetime` raises) outside year 1..9999. -/
def epochMsToIsoUtc (ms : Int) : Except PyErr String :=
  let sec := Int.fdiv ms 1000
  let micro := Int.fmod ms 1000 * 1000
  if yearAt sec 0 < 1 ∨ 9999 < yearAt sec 0 then .error .valueError
  else .ok (isoformatAware sec micro 0)

/-- `_normalize_start_date` (lines 274-288): epoch-millisecond numbers (and
Python `bool`s, which are `int`s) become UTC ISO strings, everything else is
`str()`-ed — in particular `None` becomes the string `"None"`. -/
def _normalize_start_date (value : JVal) : Except PyErr String :=
  match value with
  | .num n => epochMsToIsoUtc n
  | .bool b => epochMsToIsoUtc (if b then 1 else 0)
  | v => .ok (pyStr v)

/-- A Python `str | None` value as it is stored into a result dict. -/
def optStr : Option String → JVal
  | none => .null
  | some s => .str s

/-- The element list of a JSON array (`[]` for other values). -/
def JVal.items : JVal → List JVal
  | .arr xs => xs
  | _ => []

/-! ## `_extract_match_basic` (lines 290-348) -/

/-- The team/logo extraction of `_extract_match_basic` (lines 314-336):
returns the raw `JVal`s stored under `team1`, `team2`, `team1Img`,
`team2Img`.  In the `teams`-array and `homeTeam`/`awayTeam` branches these
are `str`-or-`None`; in the flattened-keys branch `team1`/`team2` are the
raw looked-up values and the images stay `None` (the source never assigns
`img1`/`img2` there). -/
def extractTeams (fs : List (String × JVal)) : JVal × JVal × JVal × JVal :=
  let get := fun k => ((fs.lookup k).getD JVal.null)
  if (fs.lookup "teams").isSome && (get "teams").isArr then
    match (get "teams").items with
    | [] => (.null, .null, .null, .null)
    | [t0] => (optStr (_find_team_name t0), .null, optStr (_find_team_img t0), .null)
    | t0 :: t1 :: _ =>
        (optStr (_find_team_name t0), optStr (_find_team_name t1),
         optStr (_find_team_img t0), optStr (_find_team_img t1))
  else if (fs.lookup "homeTeam").isSome || (fs.lookup "awayTeam").isSome then
    let home := get "homeTeam"
    let away := get "awayTeam"
    (optStr (_find_team_name home), optStr (_find_team_name away),
     optStr (_find_team_img home), optStr (_find_team_img away))
  else
    (jor (get "team1Name") (get "homeTeamName"),
     jor (get "team2Name") (get "awayTeamName"),
     .null, .null)

/-- `_extract_match_basic` (lines 290-348).  Raises `AttributeError` when the
argument is not a dict (first `.get`), and propagates errors from
`_normalize_start_date`.  The locals `league_name`/`block_name` of the source
are computed but not part of the returned dict, so they are omitted. -/
def _extract_match_basic (match_obj : JVal) : Except PyErr JVal :=
  match match_obj with
  | .obj fs => do
      let get := fun k => ((fs.lookup k).getD JVal.null)
      let match_id := jor (get "matchId") (get "id")
      let start_date ← _normalize_start_date (jor (get "startDate") (get "startTime"))
      let status := jor (get "status") (get "matchStatus")
      let score1 := jor (jor (get "homeScore") (get "team1Score")) (get "score1")
      let score2 := jor (jor (get "awayScore") (get "team2Score")) (get "score2")
      let teams := extractTeams fs
      return .obj
        [("matchId", match_id), ("startDate", .str start_date), ("status", status),
         ("team1", teams.1), ("team2", teams.2.1),
         ("team1Img", teams.2.2.1), ("team2Img", teams.2.2.2),
         ("score1", score1), ("score2", score2)]
  | _ => .error .attributeError

/-! ## Status normalization (the `status_map` literal of lines 408-412 and
590-594) -/

/-- The raw-status → canonical-status dict, written out twice verbatim in the
source (`parse_opgg_matches_list` and `fetch_valorant_league_schedule`). -/
def status_map : List (String × String) :=
  [("not_started", "BEFORE"), ("running", "STARTED"), ("finished", "END")]

/-- `status_map.get(v, v)`: table lookup for string keys with the raw value
as fallback.  Python hashes the key, so an unhashable value (list/dict)
raises `TypeError`; `None`, bools and numbers are hashable and simply miss. -/
def applyStatusMap (v : JVal) : Except PyErr JVal :=
  match v with
  | .str s =>
      match status_map.lookup s with
      | some t => .ok (.str t)
      | none => .ok (.str s)
  | .arr _ => .error .typeError
  | .obj _ => .error .typeError
  | v => .ok v

/-! ## `parse_opgg_matches_list` (lines 387-452) -/

/-- `home_team.get("acronym") or home_team.get("name") or ""` (lines
422-423).  Both `.get`s raise together (iff the team value is not a dict), so
sequencing them unconditionally is equivalent to Python's short-circuit. -/
def opggTeamName (team : JVal) : Except PyErr JVal := do
  let a ← pyGet team "acronym"
  let b ← pyGet team "name"
  return jor (jor a b) (.str "")

/-- The four-candidate logo chain of lines 425-436. -/
def opggTeamImg (team : JVal) : Except PyErr JVal := do
  let a ← pyGet team "imageUrl"
  let b ← pyGet team "imageUrlLightMode"
  let c ← pyGet team "imageUrlDarkMode"
  return jor (jor (jor a b) c) (.str "")

/-- The `for match in matches` loop of lines 415-450: non-dict entries are
skipped, each dict entry becomes one flat result record. -/
def opggMatches : List JVal → Except PyErr (List JVal)
  | [] => .ok []
  | m :: ms =>
      if !m.isObj then opggMatches ms
      else do
        let home_team := jor (objGet m "homeTeam") (.obj [])
        let away_team := jor (objGet m "awayTeam") (.obj [])
        let team1 ← opggTeamName home_team
        let team2 ← opggTeamName away_team
        let team1_img ← opggTeamImg home_team
        let team2_img ← opggTeamImg away_team
        let status ← applyStatusMap (objGet m "status")
        let r : JVal := .obj
          [("matchId", objGet m "id"), ("startDate", objGet m "scheduledAt"),
           ("status", status),
           ("team1", team1), ("team2", team2),
           ("team1Img", team1_img), ("team2Img", team2_img),
           ("score1", objGet m "homeScore"), ("score2", objGet m "awayScore")]
        let rest ← opggMatches ms
        return r :: rest

/-- `parse_opgg_matches_list` (lines 387-452). -/
def parse_opgg_matches_list (opgg_response : JVal) : Except PyErr (List JVal) :=
  if !opgg_response.truthy then .ok []
  else do
    let d ← pyGet opgg_response "data"
    if !d.truthy then .ok []
    else do
      let pam ← pyGet d "pagedAllMatches"
      match jor pam (.arr []) with
      | .arr ms => opggMatches ms
      | _ => .ok []

/-! ## `parse_lol_month_days` and its inner generator `_yield_match_objs`
(lines 456-495) -/

mutual

/-- `_yield_match_objs` (lines 474-490), as the list a full consumption of
the generator produces (or the exception that consumption raises).  A dict
with a `matches` key iterates that value (`for m in node["matches"]` —
raising `TypeError` when it is not iterable); otherwise a dict carrying
`matchId` yields itself; otherwise `matchList or matches` is iterated when
truthy (`matches` is necessarily absent in that branch); lists recurse;
every other value yields nothing. -/
def _yield_match_objs : JVal → Except PyErr (List JVal)
  | .obj fs =>
      if (fs.lookup "matches").isSome then
        pyIter ((fs.lookup "matches").getD .null)
      else if (fs.lookup "matchId").isSome then
        .ok [.obj fs]
      else
        let ml := jor ((fs.lookup "matchList").getD .null) ((fs.lookup "matches").getD .null)
        if ml.truthy then pyIter ml else .ok []
  | .arr xs => yieldAll xs
  | _ => .ok []

/-- `yield from _yield_match_objs(item)` over the elements of a list,
left to right. -/
def yieldAll : List JVal → Except PyErr (List JVal)
  | [] => .ok []
  | x :: xs => do
      let a ← _yield_match_objs x
      let b ← yieldAll xs
      return a ++ b

end

/-- The `for obj in _yield_match_objs(content): matches.append(...)` loop of
lines 492-493. -/
def extractAll : List JVal → Except PyErr (List JVal)
  | [] => .ok []
  | o :: os => do
      let r ← _extract_match_basic o
      let rest ← extractAll os
      return r :: rest

/-- Python `v == 200` for a JSON value: only the integer `200` compares
equal (no floats occur in the modelled payloads). -/
def isCode200 : JVal → Bool
  | .num 200 => true
  | _ => false

/-- `parse_lol_month_days` (lines 456-495): gate on falsiness and on
`code != 200`, then flatten `content` and extract every yielded object. -/
def parse_lol_month_days (days_resp : JVal) : Except PyErr (List JVal) :=
  if !days_resp.truthy then .ok []
  else do
    let code ← pyGet days_resp "code"
    if !isCode200 code then .ok []
    else do
      let content ← pyGet days_resp "content"
      let objs ← _yield_match_objs content
      extractAll objs

/-! ## `fetch_valorant_league_schedule` (lines 517-620)

The HTTP request itself (url, headers, the 30-day window computed from
"now") belongs to the transport collaborator; the embedding takes the
transport's report — status code and, on success, the parsed JSON body — as
an argument and models everything the function does around it. -/

/-- `v.get(k, default)` on an arbitrary value: the stored value when the key
is present (even when it is `None`), the default when absent,
`AttributeError` when `v` is not a dict. -/
def pyGetD (v : JVal) (k : String) (dflt : JVal) : Except PyErr JVal :=
  match v with
  | .obj fs => .ok ((fs.lookup k).getD dflt)
  | _ => .error .attributeError

/-- `s.replace('Z', '+00:00')` (line 598): for a one-character pattern,
Python's substring replace is per-character substitution. -/
def replaceZ (s : String) : String :=
  ⟨s.data.foldr
    (fun c acc => if c = 'Z' then '+' :: '0' :: '0' :: ':' :: '0' :: '0' :: acc else c :: acc)
    []⟩

def digitVal (c : Char) : Option Int :=
  if '0' ≤ c ∧ c ≤ '9' then some ((c.toNat : Int) - 48) else none

def twoDigits (a b : Char) : Option Int := do
  let x ← digitVal a
  let y ← digitVal b
  return x * 10 + y

def daysInMonth (y m : Int) : Int :=
  if m = 2 then
    (if (Int.fmod y 4 = 0 ∧ Int.fmod y 100 ≠ 0) ∨ Int.fmod y 400 = 0 then 29 else 28)
  else if m = 4 ∨ m = 6 ∨ m = 9 ∨ m = 11 then 30
  else 31

/-- `datetime.fromisoformat` on strings of the exact timezone-aware form
`YYYY-MM-DDTHH:MM:SS±HH:MM` — the only form the verified call site feeds it
(provider timestamps after the `Z` → `+00:00` replacement): the instant as
epoch seconds.  Strings CPython would reject give `none` (= `ValueError`);
the additional formats CPython accepts are not modelled and are excluded by
hypothesis where they could matter. -/
def fromisoformatAware (s : String) : Option Int :=
  match s.data with
  | [y1, y2, y3, y4, c1, m1, m2, c2, d1, d2, tc, h1, h2, c3, mi1, mi2, c4, s1, s2,
     sg, o1, o2, c5, o3, o4] =>
    if c1 = '-' ∧ c2 = '-' ∧ tc = 'T' ∧ c3 = ':' ∧ c4 = ':' ∧ c5 = ':'
        ∧ (sg = '+' ∨ sg = '-') then do
      let yh ← twoDigits y1 y2
      let yl ← twoDigits y3 y4
      let mo ← twoDigits m1 m2
      let d ← twoDigits d1 d2
      let h ← twoDigits h1 h2
      let mi ← twoDigits mi1 mi2
      let sec ← twoDigits s1 s2
      let oh ← twoDigits o1 o2
      let om ← twoDigits o3 o4
      let y := yh * 100 + yl
      if 1 ≤ y ∧ 1 ≤ mo ∧ mo ≤ 12 ∧ 1 ≤ d ∧ d ≤ daysInMonth y mo
          ∧ h ≤ 23 ∧ mi ≤ 59 ∧ sec ≤ 59 ∧ oh ≤ 23 ∧ om ≤ 59 then
        let off := oh * 3600 + om * 60
        some (daysFromCivil y mo d * 86400 + h * 3600 + mi * 60 + sec
                - (if sg = '-' then -off else off))
      else none
    else none
  | _ => none

/-- scheduledAt sort key, read as a string (the all-string sort branch is the
only place this is used with meaning). -/
def schedKeyStr (m : JVal) : String :=
  match objGet m "scheduledAt" with
  | .str s => s
  | _ => ""

/-- scheduledAt sort key, read as a number. -/
def schedKeyNum (m : JVal) : Int :=
  match objGet m "scheduledAt" with
  | .num n => n
  | _ => 0

/-- Python string order: lexicographic by code point. -/
def charsLe : List Char → List Char → Bool
  | [], _ => true
  | _ :: _, [] => false
  | a :: as, b :: bs =>
      if a.toNat < b.toNat then true
      else if b.toNat < a.toNat then false
      else charsLe as bs

def pyStrLe (s t : String) : Bool := charsLe s.data t.data

def schedLe (a b : JVal) : Bool := pyStrLe (schedKeyStr a) (schedKeyStr b)

def schedLeNum (a b : JVal) : Bool := schedKeyNum a ≤ schedKeyNum b

/-- Stable insertion: `a` goes in front of the first element `b` with
`le a b`, i.e. after every strictly smaller element and before every element
whose key ties with `a`'s — `a` came earlier in the input. -/
def insertLe (le : α → α → Bool) (a : α) : List α → List α
  | [] => [a]
  | b :: bs => if le a b then a :: b :: bs else b :: insertLe le a bs

/-- Stable ascending sort by insertion.  Python's `sorted` is stable and
ascending, and any two stable ascending sorts of the same total preorder are
equal as functions, so this is `sorted` wherever the key comparisons are
defined. -/
def stableSort (le : α → α → Bool) : List α → List α
  | [] => []
  | a :: as => insertLe le a (stableSort le as)

/-- `sorted(matches, key=lambda x: x.get('scheduledAt'))` (line 586).
CPython applies the key to every element first (`AttributeError` on a
non-dict element); with two or more elements every element then takes part
in at least one comparison, so keys that are not uniformly strings or
uniformly numbers raise `TypeError`. -/
def pySortedBySched (ms : List JVal) : Except PyErr (List JVal) :=
  if !(ms.all JVal.isObj) then .error .attributeError
  else if ms.length ≤ 1 then .ok ms
  else if ms.all (fun m => (objGet m "scheduledAt").isStr) then .ok (stableSort schedLe ms)
  else if ms.all (fun m => (objGet m "scheduledAt").isNum) then .ok (stableSort schedLeNum ms)
  else .error .typeError

/-- The loop body of lines 597-614: one raw Valorant match → one flat record.
`Asia/Seoul` is modelled as fixed UTC+9, its offset for every instant the
relevant providers emit (post-1988). -/
def valorantNormalize (m : JVal) : Except PyErr JVal := do
  let sa ← pyGet m "scheduledAt"
  let saStr ← match sa with
    | .str s => Except.ok s
    | _ => Except.error PyErr.attributeError
  let t ← match fromisoformatAware (replaceZ saStr) with
    | some t => Except.ok t
    | none => Except.error PyErr.valueError
  if yearAt t 540 < 1 ∨ 9999 < yearAt t 540 then .error .valueError
  else do
    let status ← applyStatusMap (objGet m "status")
    let t1 ← pyGet (objGetD m "homeTeam" (.obj [])) "name"
    let t2 ← pyGet (objGetD m "awayTeam" (.obj [])) "name"
    let i1 ← pyGet (objGetD m "homeTeam" (.obj [])) "imageUrl"
    let i2 ← pyGet (objGetD m "awayTeam" (.obj [])) "imageUrl"
    return .obj
      [("matchId", objGet m "id"), ("startDate", .str (isoformatAware t 0 540)),
       ("status", status), ("leagueName", .null), ("blockName", .null),
       ("team1", t1), ("team2", t2), ("team1Img", i1), ("team2Img", i2),
       ("score1", objGet m "homeScore"), ("score2", objGet m "awayScore")]

/-- The `for match in sorted_matches` loop (lines 596-614). -/
def valorantAll : List JVal → Except PyErr (List JVal)
  | [] => .ok []
  | m :: ms => do
      let r ← valorantNormalize m
      let rest ← valorantAll ms
      return r :: rest

/-- The transport collaborator's report: HTTP status and, for status 200,
the parsed JSON body. -/
structure HttpResp where
  status : Nat
  body : JVal

/-- The alias-resolution step of line 530:
`VALORANT_LEAGUE_ALIAS.get(league_input.lower())`. -/
def resolve_league_alias (league_input : String) : Option String :=
  VALORANT_LEAGUE_ALIAS.lookup (pyLower league_input)

/-- `Except` success as a `Bool`, for decidable hypotheses. -/
def exOk {ε α : Type} : Except ε α → Bool
  | .ok _ => true
  | .error _ => false

/-- `fetch_valorant_league_schedule` (lines 517-620) as a function of the
league input and the transport result.  `Except.ok none` models
`return None`. -/
def fetch_valorant_league_schedule (league_input : String) (resp : HttpResp) :
    Except PyErr (Option (List JVal)) :=
  match resolve_league_alias league_input with
  | none => .ok none
  | some standard_key =>
    match VALORANT_LEAGUE_IDS.lookup standard_key with
    | none => .ok none
    | some serieIds_list =>
      if serieIds_list.isEmpty then .ok none
      else if resp.status ≠ 200 then .ok none
      else do
        let d ← pyGetD resp.body "data" (.obj [])
        let mbs ← pyGet d "matchesBySeries"
        if !mbs.truthy then .ok none
        else do
          let elems ← pyIter mbs
          let sortedMs ← pySortedBySched elems
          let recs ← valorantAll sortedMs
          return some recs

/-! ## Helper lemmas -/

theorem pyGet_obj (fs : List (String × JVal)) (k : String) :
    pyGet (.obj fs) k = .ok (objGet (.obj fs) k) := rfl

theorem extractAll_ok {os : List JVal}
    (h : ∀ o ∈ os, exOk (_extract_match_basic o) = true) :
    ∃ rs, extractAll os = .ok rs ∧ rs.length = os.length ∧
      ∀ r ∈ rs, ∃ o, o ∈ os ∧ _extract_match_basic o = .ok r := by
  induction os with
  | nil => exact ⟨[], rfl, rfl, by simp⟩
  | cons o os ih =>
      have ho := h o (by simp)
      cases he : _extract_match_basic o with
      | error e => rw [he] at ho; simp [exOk] at ho
      | ok r =>
          obtain ⟨rs, h1, h2, h3⟩ := ih (fun o' ho' => h o' (by simp [ho']))
          refine ⟨r :: rs, ?_, by simp [h2], ?_⟩
          · simp only [extractAll, he, h1]; rfl
          · intro r' hr'
            rcases List.mem_cons.mp hr' with rfl | hr'
            · exact ⟨o, by simp, he⟩
            · obtain ⟨o', ho', heo⟩ := h3 r' hr'
              exact ⟨o', by simp [ho'], heo⟩

theorem extract_ok_keys {o r : JVal} (h : _extract_match_basic o = .ok r) :
    r.hasKey "matchId" = true ∧ r.hasKey "startDate" = true := by
  cases o with
  | obj fs =>
      rw [_extract_match_basic] at h
      simp only [bind, Except.bind] at h
      cases hn : _normalize_start_date
          (jor ((fs.lookup "startDate").getD JVal.null) ((fs.lookup "startTime").getD JVal.null)) with
      | error e => rw [hn] at h; cases h
      | ok s =>
          rw [hn] at h
          simp only [pure, Except.pure, Except.ok.injEq] at h
          subst h
          exact ⟨rfl, rfl⟩
  | null => cases h
  | bool b => cases h
  | num n => cases h
  | str s => cases h
  | arr xs => cases h

theorem insertLe_perm (le : α → α → Bool) (a : α) (l : List α) :
    List.Perm (insertLe le a l) (a :: l) := by
  induction l with
  | nil => rfl
  | cons b bs ih =>
      rw [insertLe]
      by_cases h : le a b = true
      · simp [h]
      · simp only [h, if_false, Bool.false_eq_true]
        exact (ih.cons b).trans (List.Perm.swap a b bs)

theorem stableSort_perm (le : α → α → Bool) (l : List α) :
    List.Perm (stableSort le l) l := by
  induction l with
  | nil => rfl
  | cons a as ih => exact (insertLe_perm le a (stableSort le as)).trans (ih.cons a)

theorem pairwise_insertLe {le : α → α → Bool}
    (trans : ∀ x y z, le x y = true → le y z = true → le x z = true)
    (total : ∀ x y, le x y = true ∨ le y x = true)
    (a : α) {l : List α} (h : l.Pairwise (le · · = true)) :
    (insertLe le a l).Pairwise (le · · = true) := by
  induction l with
  | nil => simp [insertLe]
  | cons b bs ih =>
      rw [insertLe]
      rw [List.pairwise_cons] at h
      by_cases hab : le a b = true
      · simp only [hab, if_true]
        refine List.Pairwise.cons ?_ (List.Pairwise.cons h.1 h.2)
        intro x hx
        rcases List.mem_cons.mp hx with rfl | hx
        · exact hab
        · exact trans a b x hab (h.1 x hx)
      · simp only [hab, if_false, Bool.false_eq_true]
        have hba : le b a = true := (total a b).resolve_left hab
        refine List.Pairwise.cons ?_ (ih h.2)
        intro x hx
        rcases List.mem_cons.mp ((insertLe_perm le a bs).mem_iff.mp hx) with rfl | hx
        · exact hba
        · exact h.1 x hx

theorem pairwise_stableSort {le : α → α → Bool}
    (trans : ∀ x y z, le x y = true → le y z = true → le x z = true)
    (total : ∀ x y, le x y = true ∨ le y x = true)
    (l : List α) : (stableSort le l).Pairwise (le · · = true) := by
  induction l with
  | nil => simp [stableSort]
  | cons a as ih => exact pairwise_insertLe trans total a ih

theorem charsLe_refl : ∀ s : List Char, charsLe s s = true
  | [] => rfl
  | a :: as => by simp [charsLe, charsLe_refl as]

theorem pyStrLe_refl (s : String) : pyStrLe s s = true := charsLe_refl s.data

theorem charsLe_total : ∀ s t : List Char, charsLe s t = true ∨ charsLe t s = true
  | [], _ => .inl rfl
  | _ :: _, [] => .inr rfl
  | a :: as, b :: bs => by
      rcases Nat.lt_trichotomy a.toNat b.toNat with h | h | h
      · left; simp [charsLe, h]
      · have h1 : ¬ a.toNat < b.toNat := by omega
        have h2 : ¬ b.toNat < a.toNat := by omega
        simpa [charsLe, h1, h2] using charsLe_total as bs
      · right; simp [charsLe, h]

theorem charsLe_trans : ∀ s t u : List Char,
    charsLe s t = true → charsLe t u = true → charsLe s u = true
  | [], _, _, _, _ => rfl
  | _ :: _, [], _, h1, _ => by cases h1
  | _ :: _, _ :: _, [], _, h2 => by cases h2
  | a :: as, b :: bs, c :: cs, h1, h2 => by
      simp only [charsLe] at h1 h2 ⊢
      rcases Nat.lt_trichotomy a.toNat b.toNat with hab | hab | hab
      · rcases Nat.lt_trichotomy b.toNat c.toNat with hbc | hbc | hbc
        · rw [if_pos (by omega : a.toNat < c.toNat)]
        · rw [if_pos (by omega : a.toNat < c.toNat)]
        · rw [if_neg (by omega : ¬ b.toNat < c.toNat),
            if_pos (by omega : c.toNat < b.toNat)] at h2
          cases h2
      · rw [if_neg (by omega : ¬ a.toNat < b.toNat),
          if_neg (by omega : ¬ b.toNat < a.toNat)] at h1
        rcases Nat.lt_trichotomy b.toNat c.toNat with hbc | hbc | hbc
        · rw [if_pos (by omega : a.toNat < c.toNat)]
        · rw [if_neg (by omega : ¬ b.toNat < c.toNat),
            if_neg (by omega : ¬ c.toNat < b.toNat)] at h2
          rw [if_neg (by omega : ¬ a.toNat < c.toNat),
            if_neg (by omega : ¬ c.toNat < a.toNat)]
          exact charsLe_trans as bs cs h1 h2
        · rw [if_neg (by omega : ¬ b.toNat < c.toNat),
            if_pos (by omega : c.toNat < b.toNat)] at h2
          cases h2
      · rw [if_neg (by omega : ¬ a.toNat < b.toNat),
          if_pos (by omega : b.toNat < a.toNat)] at h1
        cases h1

theorem schedLe_total (a b : JVal) : schedLe a b = true ∨ schedLe b a = true :=
  charsLe_total (schedKeyStr a).data (schedKeyStr b).data

theorem schedLe_trans (a b c : JVal)
    (h1 : schedLe a b = true) (h2 : schedLe b c = true) : schedLe a c = true :=
  charsLe_trans (schedKeyStr a).data (schedKeyStr b).data (schedKeyStr c).data h1 h2

theorem schedLe_of_keys_eq {a b : JVal} (h : schedKeyStr a = schedKeyStr b) :
    schedLe a b = true := by
  unfold schedLe pyStrLe
  rw [h]
  exact charsLe_refl _

theorem keys_ne_of_not_schedLe {a b : JVal} (h : ¬ schedLe a b = true) :
    schedKeyStr b ≠ schedKeyStr a :=
  fun he => h (schedLe_of_keys_eq he.symm)

theorem filter_insertLe (a : JVal) (l : List JVal) (key : String) :
    (insertLe schedLe a l).filter (fun m => schedKeyStr m == key)
      = if schedKeyStr a == key
        then a :: l.filter (fun m => schedKeyStr m == key)
        else l.filter (fun m => schedKeyStr m == key) := by
  induction l with
  | nil =>
      by_cases h : (schedKeyStr a == key) = true
      · simp [insertLe, List.filter, h]
      · simp only [Bool.not_eq_true] at h
        simp [insertLe, List.filter, h]
  | cons b bs ih =>
      rw [insertLe]
      by_cases hab : schedLe a b = true
      · simp only [hab, if_true]
        by_cases h : (schedKeyStr a == key) = true
        · simp [List.filter, h]
        · simp only [Bool.not_eq_true] at h
          simp [List.filter, h]
      · simp only [hab, if_false, Bool.false_eq_true]
        have hne : schedKeyStr b ≠ schedKeyStr a := keys_ne_of_not_schedLe hab
        by_cases h : (schedKeyStr a == key) = true
        · have hbk : (schedKeyStr b == key) = false := by
            have : schedKeyStr b ≠ key := fun hb => hne (hb.trans (eq_of_beq h).symm)
            simpa using this
          simp [List.filter, hbk, ih, h]
        · simp only [Bool.not_eq_true] at h
          simp only [List.filter, ih, h, if_false]
          rfl


theorem filter_stableSort (l : List JVal) (key : String) :
    (stableSort schedLe l).filter (fun m => schedKeyStr m == key)
      = l.filter (fun m => schedKeyStr m == key) := by
  induction l with
  | nil => rfl
  | cons a as ih =>
      rw [stableSort, filter_insertLe]
      by_cases h : (schedKeyStr a == key) = true
      · simp [List.filter, h, ih]
      · simp only [Bool.not_eq_true] at h
        simp [List.filter, h, ih]

theorem valorantAll_ok {ms : List JVal}
    (h : ∀ m ∈ ms, exOk (valorantNormalize m) = true) :
    ∃ rs, valorantAll ms = .ok rs := by
  induction ms with
  | nil => exact ⟨[], rfl⟩
  | cons m ms ih =>
      have hm := h m (by simp)
      cases he : valorantNormalize m with
      | error e => rw [he] at hm; simp [exOk] at hm
      | ok r =>
          obtain ⟨rs, hrs⟩ := ih (fun m' hm' => h m' (by simp [hm']))
          refine ⟨r :: rs, ?_⟩
          simp only [valorantAll, he, hrs]
          rfl

/-! ## Claim theorems -/

/-- Claim C4: for every alias stored in the alias table, resolving it by
lowercasing the input and looking it up should return the same canonical key
as resolving the alias's canonical form.  The code violates this for the
stored aliases "MASTER", "JP" and "BR": lowercasing turns them into
"master", "jp" and "br", none of which is a key of the table, so those three
stored entries are unreachable and the inputs fail to resolve at all, while
the canonical forms resolve fine.  (ASCII aliases whose lowercase form is
itself a key, and the localized aliases, do resolve as claimed.) -/
theorem C4_stored_alias_unreachable :
    ("MASTER", "masters") ∈ VALORANT_LEAGUE_ALIAS ∧
    ("JP", "japan") ∈ VALORANT_LEAGUE_ALIAS ∧
    ("BR", "brazil") ∈ VALORANT_LEAGUE_ALIAS ∧
    resolve_league_alias "MASTER" = none ∧
    resolve_league_alias "JP" = none ∧
    resolve_league_alias "BR" = none ∧
    resolve_league_alias "masters" = some "masters" ∧
    resolve_league_alias "japan" = some "japan" ∧
    resolve_league_alias "brazil" = some "brazil" ∧
    resolve_league_alias "EMEA" = resolve_league_alias "emea" ∧
    resolve_league_alias "PACIFIC" = some "pacific" ∧
    resolve_league_alias "퍼시픽" = some "pacific" ∧
    resolve_league_alias "마스터스" = some "masters" := by
  refine ⟨?_, ?_, ?_, rfl, rfl, rfl, rfl, rfl, rfl, rfl, rfl, rfl, rfl⟩ <;> decide

/-- Claim C6: status normalization maps "not_started" to "BEFORE", "running"
to "STARTED" and "finished" to "END", and passes every other raw string
status through unchanged, without raising. -/
theorem C6_status_passthrough :
    applyStatusMap (.str "not_started") = .ok (.str "BEFORE") ∧
    applyStatusMap (.str "running") = .ok (.str "STARTED") ∧
    applyStatusMap (.str "finished") = .ok (.str "END") ∧
    ∀ s : String, s ≠ "not_started" → s ≠ "running" → s ≠ "finished" →
      applyStatusMap (.str s) = .ok (.str s) := by
  refine ⟨rfl, rfl, rfl, ?_⟩
  intro s h1 h2 h3
  have e1 : (s == "not_started") = false := beq_eq_false_iff_ne.mpr h1
  have e2 : (s == "running") = false := beq_eq_false_iff_ne.mpr h2
  have e3 : (s == "finished") = false := beq_eq_false_iff_ne.mpr h3
  simp [applyStatusMap, status_map, List.lookup, e1, e2, e3]

/-- Witness for C6 at the raw status "paused". -/
theorem C6_witness :
    applyStatusMap (.str "paused") = .ok (.str "paused") :=
  C6_status_passthrough.2.2.2 "paused" (by decide) (by decide) (by decide)

/-- Claim C7: for every response value (a dict, per the function's
signature, or a falsy value) whose top-level `code` field is not the integer
200 — including responses that are empty or where the field is absent —
`parse_lol_month_days` returns the empty list, whatever the rest of the
response contains. -/
theorem C7_failure_gate (days_resp : JVal)
    (hshape : days_resp.truthy = false ∨ days_resp.isObj = true)
    (hcode : isCode200 (objGet days_resp "code") = false) :
    parse_lol_month_days days_resp = .ok [] := by
  rcases hshape with h | h
  · unfold parse_lol_month_days
    rw [h]
    rfl
  · cases days_resp with
    | obj fs =>
        unfold parse_lol_month_days
        have hc : isCode200 ((fs.lookup "code").getD .null) = false := hcode
        cases ht : JVal.truthy (.obj fs) with
        | false => rfl
        | true =>
            simp only [Bool.not_true, Bool.false_eq_true, if_false, bind, Except.bind,
              pyGet, hc]
            rfl
    | null => cases h
    | bool b => cases h
    | num n => cases h
    | str s => cases h
    | arr xs => cases h

/-- Witness for C7: a status-500 response with a non-empty body yields no
records. -/
theorem C7_witness :
    isCode200 (objGet (.obj [("code", .num 500),
        ("content", .obj [("matches", .arr [.obj [("matchId", .num 1)]])])]) "code") = false ∧
    parse_lol_month_days (.obj [("code", .num 500),
        ("content", .obj [("matches", .arr [.obj [("matchId", .num 1)]])])]) = .ok [] :=
  ⟨rfl, C7_failure_gate _ (Or.inr rfl) rfl⟩

theorem findFirstTruthy_first (fs : List (String × JVal)) :
    ∀ pre (k : String) (post : List String),
      (∀ k0 ∈ pre, ((fs.lookup k0).getD JVal.null).truthy = false) →
      ((fs.lookup k).getD JVal.null).truthy = true →
      findFirstTruthy fs (pre ++ k :: post) = some ((fs.lookup k).getD JVal.null)
  | [], k, post, _, hk => by
      rw [List.nil_append, findFirstTruthy]
      simp only [hk, if_true]
  | p :: pre, k, post, hpre, hk => by
      rw [List.cons_append, findFirstTruthy]
      have hp := hpre p (by simp)
      simp only [hp, Bool.false_eq_true, if_false]
      exact findFirstTruthy_first fs pre k post (fun k0 h0 => hpre k0 (by simp [h0])) hk

theorem findFirstTruthy_none (fs : List (String × JVal)) :
    ∀ keys : List String,
      (∀ k0 ∈ keys, ((fs.lookup k0).getD JVal.null).truthy = false) →
      findFirstTruthy fs keys = none
  | [], _ => rfl
  | k :: ks, h => by
      rw [findFirstTruthy]
      have hk := h k (by simp)
      simp only [hk, Bool.false_eq_true, if_false]
      exact findFirstTruthy_none fs ks (fun k0 h0 => h k0 (by simp [h0]))

/-- Claim C8: `_find_team_name` / `_find_team_img` return the first candidate
key with a non-empty (truthy) value in the fixed documented priority order —
names: teamCode, nameAcronym, shortName, nameEng, name; logos: imageUrl,
colorImageUrl, whiteImageUrl, blackImageUrl.  Stated for every team dict and
every split of the priority list: whenever every earlier candidate is falsy
(absent, null, or present but empty) and candidate `k` holds a truthy value,
the result is exactly `str()` of the value stored at `k`, whatever the later
candidates hold; when every candidate is falsy the result is `None`; and for an absent,
null or non-dict team object the result is `None`. -/
theorem C8_extraction_priority :
    (∀ t : JVal, t.isObj = false → _find_team_name t = none ∧ _find_team_img t = none) ∧
    (∀ fs : List (String × JVal), ∀ pre post : List String, ∀ k : String,
        _TEAM_NAME_KEYS = pre ++ k :: post →
        (∀ k0 ∈ pre, (objGet (.obj fs) k0).truthy = false) →
        (objGet (.obj fs) k).truthy = true →
        _find_team_name (.obj fs) = some (pyStr (objGet (.obj fs) k))) ∧
    (∀ fs : List (String × JVal),
        (∀ k0 ∈ _TEAM_NAME_KEYS, (objGet (.obj fs) k0).truthy = false) →
        _find_team_name (.obj fs) = none) ∧
    (∀ fs : List (String × JVal), ∀ pre post : List String, ∀ k : String,
        _TEAM_IMG_KEYS = pre ++ k :: post →
        (∀ k0 ∈ pre, (objGet (.obj fs) k0).truthy = false) →
        (objGet (.obj fs) k).truthy = true →
        _find_team_img (.obj fs) = some (pyStr (objGet (.obj fs) k))) ∧
    (∀ fs : List (String × JVal),
        (∀ k0 ∈ _TEAM_IMG_KEYS, (objGet (.obj fs) k0).truthy = false) →
        _find_team_img (.obj fs) = none) := by
  refine ⟨?_, ?_, ?_, ?_, ?_⟩
  · intro t ht
    cases t with
    | obj fs => cases ht
    | null => exact ⟨rfl, rfl⟩
    | bool b => exact ⟨rfl, rfl⟩
    | num n => exact ⟨rfl, rfl⟩
    | str s => exact ⟨rfl, rfl⟩
    | arr xs => exact ⟨rfl, rfl⟩
  · intro fs pre post k hsplit hpre hk
    show (findFirstTruthy fs _TEAM_NAME_KEYS).map pyStr = _
    rw [hsplit, findFirstTruthy_first fs pre k post hpre hk]
    rfl
  · intro fs hall
    show (findFirstTruthy fs _TEAM_NAME_KEYS).map pyStr = none
    rw [findFirstTruthy_none fs _TEAM_NAME_KEYS hall]
    rfl
  · intro fs pre post k hsplit hpre hk
    show (findFirstTruthy fs _TEAM_IMG_KEYS).map pyStr = _
    rw [hsplit, findFirstTruthy_first fs pre k post hpre hk]
    rfl
  · intro fs hall
    show (findFirstTruthy fs _TEAM_IMG_KEYS).map pyStr = none
    rw [findFirstTruthy_none fs _TEAM_IMG_KEYS hall]
    rfl

/-- Witness for C8: a present-but-empty `teamCode` and an absent
`nameAcronym` are both skipped in favor of the third-priority `shortName`
even though lower-priority keys are populated; a team with no truthy
candidate gives `None`; likewise for logos; a non-dict team gives `None`. -/
theorem C8_witness :
    _find_team_name JVal.null = none ∧
    _find_team_name (.obj [("teamCode", .str ""), ("shortName", .str "Gen"),
        ("name", .str "GenG Esports")]) = some "Gen" ∧
    _find_team_name (.obj [("teamCode", .str ""), ("name", .null)]) = none ∧
    _find_team_img (.obj [("imageUrl", .str ""), ("whiteImageUrl", .str "w.png"),
        ("blackImageUrl", .str "b.png")]) = some "w.png" ∧
    _find_team_img (.obj [("logo", .str "x.png")]) = none :=
  ⟨(C8_extraction_priority.1 JVal.null rfl).1,
   C8_extraction_priority.2.1
     [("teamCode", .str ""), ("shortName", .str "Gen"), ("name", .str "GenG Esports")]
     ["teamCode", "nameAcronym"] ["nameEng", "name"] "shortName" rfl (by decide) rfl,
   C8_extraction_priority.2.2.1 [("teamCode", .str ""), ("name", .null)] (by decide),
   C8_extraction_priority.2.2.2.1
     [("imageUrl", .str ""), ("whiteImageUrl", .str "w.png"), ("blackImageUrl", .str "b.png")]
     ["imageUrl", "colorImageUrl"] ["blackImageUrl"] "whiteImageUrl" rfl (by decide) rfl,
   C8_extraction_priority.2.2.2.2 [("logo", .str "x.png")] (by decide)⟩

/-- Counterexample to claim C1: a raw match object from which neither
`matchId` nor `startDate` can be derived is not dropped.
`parse_lol_month_days` emits it with `matchId = None` and the placeholder
string `startDate = "None"` (Python `str(None)`), and
`parse_opgg_matches_list` emits it with both fields `None`. -/
theorem C1_counterexample :
    parse_lol_month_days
        (.obj [("code", .num 200), ("content", .obj [("matches", .arr [.obj []])])])
      = .ok [.obj [("matchId", .null), ("startDate", .str "None"), ("status", .null),
          ("team1", .null), ("team2", .null), ("team1Img", .null), ("team2Img", .null),
          ("score1", .null), ("score2", .null)]] ∧
    parse_opgg_matches_list (.obj [("data", .obj [("pagedAllMatches", .arr [.obj []])])])
      = .ok [.obj [("matchId", .null), ("startDate", .null), ("status", .null),
          ("team1", .str ""), ("team2", .str ""), ("team1Img", .str ""), ("team2Img", .str ""),
          ("score1", .null), ("score2", .null)]] :=
  ⟨rfl, rfl⟩

/-- Counterexample to claim C2: a raw match with `homeTeam: None` does not
yield the empty-string sentinel in `_extract_match_basic` — the extracted
`team1`/`team1Img` are `None`, which is a different value than `""`. -/
theorem C2_counterexample :
    _extract_match_basic (.obj [("homeTeam", JVal.null)])
      = .ok (.obj [("matchId", .null), ("startDate", .str "None"), ("status", .null),
          ("team1", .null), ("team2", .null), ("team1Img", .null), ("team2Img", .null),
          ("score1", .null), ("score2", .null)]) ∧
    JVal.null ≠ JVal.str "" :=
  ⟨rfl, fun h => JVal.noConfusion h⟩

/-- Counterexample to claim C3: the value returned for a transport failure
(non-200 status) is `None` — exactly the same value returned for an unknown
league alias, so the two outcomes are not distinguishable by the caller. -/
theorem C3_counterexample :
    fetch_valorant_league_schedule "pacific" ⟨500, .null⟩ = .ok none ∧
    fetch_valorant_league_schedule "no-such-league" ⟨500, .null⟩ = .ok none ∧
    fetch_valorant_league_schedule "pacific" ⟨500, .null⟩
      = fetch_valorant_league_schedule "no-such-league" ⟨500, .null⟩ :=
  ⟨rfl, rfl, rfl⟩

/-- Counterexample to claim C5: the flattener does raise on malformed input.
A node whose `matches` field is a non-iterable (the integer 5) raises
`TypeError` (`for m in node["matches"]`), aborting the whole response — the
well-formed sibling node that follows is never processed. -/
theorem C5_counterexample :
    parse_lol_month_days (.obj [("code", .num 200),
        ("content", .arr [.obj [("matches", .num 5)], .obj [("matchId", .num 7)]])])
      = .error .typeError :=
  rfl

/-- Counterexample to claim C10: when no score candidate is truthy the score
is not necessarily `None` — the `or`-chain returns its last operand, so a
match whose only score field is `score1 = 0` yields the score `0`, a value
different from `None`. -/
theorem C10_counterexample :
    _extract_match_basic (.obj [("score1", .num 0)])
      = .ok (.obj [("matchId", .null), ("startDate", .str "None"), ("status", .null),
          ("team1", .null), ("team2", .null), ("team1Img", .null), ("team2Img", .null),
          ("score1", .num 0), ("score2", .null)]) ∧
    JVal.num 0 ≠ JVal.null :=
  ⟨rfl, fun h => JVal.noConfusion h⟩

theorem ebind_ok {ε α β : Type} (a : α) (f : α → Except ε β) :
    (bind (Except.ok a) f : Except ε β) = f a := rfl

theorem ebind_err {ε α β : Type} (e : ε) (f : α → Except ε β) :
    (bind (Except.error e) f : Except ε β) = .error e := rfl

/-- Claim C3 as amended: when the transport reports a non-success status,
`fetch_valorant_league_schedule` returns `None` — the very same value it
returns for an unknown league alias, so the two outcomes are NOT
distinguishable by the returned value (only the logged messages differ). -/
theorem C3_amended (league : String) (resp : HttpResp) :
    (resp.status ≠ 200 → fetch_valorant_league_schedule league resp = .ok none) ∧
    (resolve_league_alias league = none →
        fetch_valorant_league_schedule league resp = .ok none) := by
  constructor
  · intro h
    cases hr : resolve_league_alias league with
    | none => simp [fetch_valorant_league_schedule, hr]
    | some key =>
        cases hi : VALORANT_LEAGUE_IDS.lookup key with
        | none => simp [fetch_valorant_league_schedule, hr, hi]
        | some ids =>
            by_cases he : ids.isEmpty = true
            · simp [fetch_valorant_league_schedule, hr, hi, he]
            · simp only [Bool.not_eq_true] at he
              simp [fetch_valorant_league_schedule, hr, hi, he, h]
  · intro h
    simp [fetch_valorant_league_schedule, h]

/-- Witness for C3 as amended: a 503 response for a known league and a 200
response for an unknown alias both come back as `None`. -/
theorem C3_amended_witness :
    fetch_valorant_league_schedule "pacific" ⟨503, .arr [.str "irrelevant"]⟩ = .ok none ∧
    fetch_valorant_league_schedule "unknown-league" ⟨200, .null⟩ = .ok none :=
  ⟨(C3_amended "pacific" ⟨503, .arr [.str "irrelevant"]⟩).1 (by decide),
   (C3_amended "unknown-league" ⟨200, .null⟩).2 (by decide)⟩

/-- Claim C5 as amended: the flattener silently skips every node that is
neither a dict nor a list (the remaining nodes of the surrounding list are
still processed), and yields nothing from a dict carrying none of the
recognized keys; but — as the counterexample shows — a dict whose `matches`
(or truthy `matchList`) value is not iterable raises `TypeError` and aborts
the whole response. -/
theorem C5_amended (v : JVal) (xs : List JVal)
    (h1 : v.isObj = false) (h2 : v.isArr = false) :
    _yield_match_objs v = .ok [] ∧
    _yield_match_objs (.arr (v :: xs)) = _yield_match_objs (.arr xs) ∧
    ∀ fs : List (String × JVal),
      fs.lookup "matches" = none → fs.lookup "matchId" = none →
      fs.lookup "matchList" = none → _yield_match_objs (.obj fs) = .ok [] := by
  have hv : _yield_match_objs v = .ok [] := by
    cases v with
    | obj fs => cases h1
    | arr l => cases h2
    | null => rfl
    | bool b => rfl
    | num n => rfl
    | str s => rfl
  refine ⟨hv, ?_, ?_⟩
  · show yieldAll (v :: xs) = yieldAll xs
    rw [yieldAll, hv]
    cases hys : yieldAll xs with
    | error e => rfl
    | ok ys => rfl
  · intro fs hm hi hl
    rw [_yield_match_objs]
    simp [hm, hi, hl, jor, JVal.truthy]

/-- Witness for C5 as amended: a stray number inside the day list is skipped
and the following well-formed container is still flattened and parsed. -/
theorem C5_amended_witness :
    _yield_match_objs (.num 7) = .ok [] ∧
    _yield_match_objs (.arr [.num 7, .obj [("matches", .arr [.obj [("matchId", .num 1)]])]])
      = _yield_match_objs (.arr [.obj [("matches", .arr [.obj [("matchId", .num 1)]])]]) ∧
    _yield_match_objs (.obj [("date", .str "2024-04-01")]) = .ok [] := by
  obtain ⟨a, b, c⟩ := C5_amended (.num 7)
    [.obj [("matches", .arr [.obj [("matchId", .num 1)]])]] rfl rfl
  exact ⟨a, b, c [("date", .str "2024-04-01")] rfl rfl rfl⟩

/-- Claim C1 as amended: `parse_lol_month_days` emits exactly one record per
raw object the flattener yields — records are never dropped, even when
`matchId`/`startDate` cannot be derived (the counterexample shows such a
record is emitted with `matchId = None` and `startDate = "None"`).  What does
hold is the key-presence half of the invariant: every emitted record always
carries the `matchId` and `startDate` keys.  (`parse_opgg_matches_list`
likewise emits underivable ids/dates as `None` rather than dropping the
match.) -/
theorem C1_amended (c : JVal) (objs : List JVal)
    (hy : _yield_match_objs c = .ok objs)
    (hok : ∀ o ∈ objs, exOk (_extract_match_basic o) = true) :
    ∃ recs, parse_lol_month_days (.obj [("code", .num 200), ("content", c)]) = .ok recs ∧
      recs.length = objs.length ∧
      ∀ r ∈ recs, r.hasKey "matchId" = true ∧ r.hasKey "startDate" = true := by
  obtain ⟨rs, h1, h2, h3⟩ := extractAll_ok hok
  refine ⟨rs, ?_, h2, ?_⟩
  · have e : parse_lol_month_days (.obj [("code", .num 200), ("content", c)])
        = bind (_yield_match_objs c) (fun objs => extractAll objs) := rfl
    rw [e, hy, ebind_ok, h1]
  · intro r hr
    obtain ⟨o, _, heo⟩ := h3 r hr
    exact extract_ok_keys heo

/-- Witness for C1 as amended: a month response with two raw matches — one
with no derivable id/date at all — yields exactly two records, each carrying
the `matchId` and `startDate` keys. -/
theorem C1_amended_witness :
    _yield_match_objs (.obj [("matches", .arr [.obj [], .obj [("id", .num 3)]])])
      = .ok [.obj [], .obj [("id", .num 3)]] ∧
    (∃ recs, parse_lol_month_days (.obj [("code", .num 200),
        ("content", .obj [("matches", .arr [.obj [], .obj [("id", .num 3)]])])]) = .ok recs ∧
      recs.length = [JVal.obj [], .obj [("id", .num 3)]].length ∧
      ∀ r ∈ recs, r.hasKey "matchId" = true ∧ r.hasKey "startDate" = true) :=
  ⟨rfl, C1_amended (.obj [("matches", .arr [.obj [], .obj [("id", .num 3)]])])
      [.obj [], .obj [("id", .num 3)]] rfl (by decide)⟩

theorem extract_scores {fs : List (String × JVal)} {r : JVal}
    (hr : _extract_match_basic (.obj fs) = .ok r) :
    objGet r "score1"
        = jor (jor (objGet (.obj fs) "homeScore") (objGet (.obj fs) "team1Score"))
            (objGet (.obj fs) "score1") ∧
    objGet r "score2"
        = jor (jor (objGet (.obj fs) "awayScore") (objGet (.obj fs) "team2Score"))
            (objGet (.obj fs) "score2") := by
  rw [_extract_match_basic] at hr
  simp only [bind, Except.bind] at hr
  cases hn : _normalize_start_date
      (jor ((fs.lookup "startDate").getD JVal.null) ((fs.lookup "startTime").getD JVal.null)) with
  | error e => rw [hn] at hr; cases hr
  | ok s =>
      rw [hn] at hr
      simp only [pure, Except.pure, Except.ok.injEq] at hr
      subst hr
      exact ⟨rfl, rfl⟩

/-- Claim C10 as amended: score extraction is first-truthy over
homeScore / team1Score / score1 (resp. awayScore / team2Score / score2) — a
truthy earlier candidate wins, a 0 in an earlier candidate is skipped in
favor of a later truthy candidate — but when no candidate is truthy the
score is the raw value of the LAST candidate (`score1`/`score2`), which is
`None` when that key is absent or null yet is `0` (not null) when the last
candidate holds a 0, as the counterexample shows. -/
theorem C10_amended (m r : JVal) (hr : _extract_match_basic m = .ok r) :
    ((objGet m "homeScore").truthy = true → objGet r "score1" = objGet m "homeScore") ∧
    (objGet m "homeScore" = .num 0 → (objGet m "team1Score").truthy = true →
        objGet r "score1" = objGet m "team1Score") ∧
    ((objGet m "homeScore").truthy = false → (objGet m "team1Score").truthy = false →
        objGet r "score1" = objGet m "score1") ∧
    ((objGet m "awayScore").truthy = true → objGet r "score2" = objGet m "awayScore") ∧
    (objGet m "awayScore" = .num 0 → (objGet m "team2Score").truthy = true →
        objGet r "score2" = objGet m "team2Score") ∧
    ((objGet m "awayScore").truthy = false → (objGet m "team2Score").truthy = false →
        objGet r "score2" = objGet m "score2") := by
  cases m with
  | obj fs =>
      obtain ⟨e1, e2⟩ := extract_scores hr
      refine ⟨?_, ?_, ?_, ?_, ?_, ?_⟩
      · intro h
        rw [e1]
        simp [jor, h]
      · intro h0 ht
        rw [e1, h0]
        have h00 : (JVal.num 0).truthy = false := rfl
        simp [jor, h00, ht]
      · intro h1 h2
        rw [e1]
        simp [jor, h1, h2]
      · intro h
        rw [e2]
        simp [jor, h]
      · intro h0 ht
        rw [e2, h0]
        have h00 : (JVal.num 0).truthy = false := rfl
        simp [jor, h00, ht]
      · intro h1 h2
        rw [e2]
        simp [jor, h1, h2]
  | null => cases hr
  | bool b => cases hr
  | num n => cases hr
  | str s => cases hr
  | arr xs => cases hr

/-- Witness for C10 as amended: a match with `homeScore = 0` and
`team1Score = 2` reports score 2 (the 0 is skipped); on the away side, with
only falsy candidates the raw last candidate (`score2 = 0`) is reported. -/
theorem C10_amended_witness :
    objGet (.obj [("matchId", .num 5), ("homeScore", .num 0), ("team1Score", .num 2),
        ("score2", .num 0)]) "homeScore" = .num 0 ∧
    (∃ r, _extract_match_basic (.obj [("matchId", .num 5), ("homeScore", .num 0),
        ("team1Score", .num 2), ("score2", .num 0)]) = .ok r ∧
      objGet r "score1" = .num 2 ∧ objGet r "score2" = .num 0) := by
  have h := C10_amended
    (.obj [("matchId", .num 5), ("homeScore", .num 0), ("team1Score", .num 2),
      ("score2", .num 0)])
    (.obj [("matchId", .num 5), ("startDate", .str "None"), ("status", .null),
      ("team1", .null), ("team2", .null), ("team1Img", .null), ("team2Img", .null),
      ("score1", .num 2), ("score2", .num 0)]) rfl
  exact ⟨rfl, ⟨_, rfl, h.2.1 rfl rfl, h.2.2.2.2.2 rfl rfl⟩⟩

/-- Claim C2 as amended: in `parse_opgg_matches_list` a `homeTeam`/`awayTeam`
that is null, absent or otherwise falsy yields team name `""` and logo `""`
for that side without raising; but the sentinel is not uniform across the
normalization paths — `_extract_match_basic` yields `None` (not `""`) for an
absent, null or non-dict team, `fetch_valorant_league_schedule`'s
normalization yields `None` for an absent team and raises `AttributeError`
for a null team, and a truthy non-object team raises `AttributeError` in
`parse_opgg_matches_list` as well. -/
theorem C2_amended (fs : List (String × JVal)) (sv : JVal)
    (hh : (objGet (.obj fs) "homeTeam").truthy = false)
    (ha : (objGet (.obj fs) "awayTeam").truthy = false)
    (hs : applyStatusMap (objGet (.obj fs) "status") = .ok sv) :
    (∃ r, parse_opgg_matches_list
        (.obj [("data", .obj [("pagedAllMatches", .arr [.obj fs])])]) = .ok [r] ∧
      objGet r "team1" = .str "" ∧ objGet r "team2" = .str "" ∧
      objGet r "team1Img" = .str "" ∧ objGet r "team2Img" = .str "") ∧
    (∀ t : JVal, t.isObj = false →
      _extract_match_basic (.obj [("homeTeam", t)])
        = .ok (.obj [("matchId", .null), ("startDate", .str "None"), ("status", .null),
            ("team1", .null), ("team2", .null), ("team1Img", .null), ("team2Img", .null),
            ("score1", .null), ("score2", .null)])) ∧
    parse_opgg_matches_list
        (.obj [("data", .obj [("pagedAllMatches", .arr [.obj [("homeTeam", .str "x")]])])])
      = .error .attributeError ∧
    valorantNormalize (.obj [("scheduledAt", .str "2025-03-01T10:00:00Z")])
      = .ok (.obj [("matchId", .null), ("startDate", .str "2025-03-01T19:00:00+09:00"),
          ("status", .null), ("leagueName", .null), ("blockName", .null),
          ("team1", .null), ("team2", .null), ("team1Img", .null), ("team2Img", .null),
          ("score1", .null), ("score2", .null)]) ∧
    valorantNormalize (.obj [("scheduledAt", .str "2025-03-01T10:00:00Z"),
        ("homeTeam", .null)]) = .error .attributeError := by
  refine ⟨?_, ?_, rfl, rfl, rfl⟩
  · have eh : jor (objGet (.obj fs) "homeTeam") (.obj []) = .obj [] := by
      rw [jor, if_neg (by rw [hh]; exact Bool.false_ne_true)]
    have ea : jor (objGet (.obj fs) "awayTeam") (.obj []) = .obj [] := by
      rw [jor, if_neg (by rw [ha]; exact Bool.false_ne_true)]
    have e0 : parse_opgg_matches_list
        (.obj [("data", .obj [("pagedAllMatches", .arr [.obj fs])])])
        = opggMatches [.obj fs] := rfl
    rw [e0, opggMatches]
    simp only [JVal.isObj, Bool.not_true, Bool.false_eq_true, if_false, eh, ea, hs]
    refine ⟨.obj [("matchId", objGet (.obj fs) "id"),
        ("startDate", objGet (.obj fs) "scheduledAt"), ("status", sv),
        ("team1", .str ""), ("team2", .str ""), ("team1Img", .str ""), ("team2Img", .str ""),
        ("score1", objGet (.obj fs) "homeScore"), ("score2", objGet (.obj fs) "awayScore")],
      rfl, rfl, rfl, rfl, rfl⟩
  · intro t ht
    cases t with
    | obj g => cases ht
    | null => rfl
    | bool b => cases b with
        | false => rfl
        | true => rfl
    | num n => rfl
    | str s => rfl
    | arr l => rfl

/-- Witness for C2 as amended at a match with `homeTeam: None`, an absent
`awayTeam` and status `"finished"`. -/
theorem C2_amended_witness :
    (∃ r, parse_opgg_matches_list
        (.obj [("data", .obj [("pagedAllMatches",
            .arr [.obj [("homeTeam", .null), ("status", .str "finished")]])])]) = .ok [r] ∧
      objGet r "team1" = .str "" ∧ objGet r "team2" = .str "" ∧
      objGet r "team1Img" = .str "" ∧ objGet r "team2Img" = .str "") ∧
    _extract_match_basic (.obj [("homeTeam", .str "not-a-dict")])
      = .ok (.obj [("matchId", .null), ("startDate", .str "None"), ("status", .null),
          ("team1", .null), ("team2", .null), ("team1Img", .null), ("team2Img", .null),
          ("score1", .null), ("score2", .null)]) := by
  have h := C2_amended [("homeTeam", .null), ("status", .str "finished")] (.str "END")
    rfl rfl rfl
  exact ⟨h.1, h.2.1 (.str "not-a-dict") rfl⟩

theorem pySorted_eval {ms : List JVal}
    (hobj : ∀ m ∈ ms, m.isObj = true)
    (hstr : ∀ m ∈ ms, (objGet m "scheduledAt").isStr = true) :
    pySortedBySched ms = .ok (stableSort schedLe ms) := by
  have h1 : ms.all JVal.isObj = true := List.all_eq_true.mpr hobj
  unfold pySortedBySched
  rw [h1]
  cases ms with
  | nil => rfl
  | cons a as =>
      cases as with
      | nil => rfl
      | cons b bs =>
          have hlen : ¬ (a :: b :: bs).length ≤ 1 := by
            simp [List.length_cons]
          have h2 : (a :: b :: bs).all (fun m => (objGet m "scheduledAt").isStr) = true :=
            List.all_eq_true.mpr hstr
          simp only [Bool.not_true, Bool.false_eq_true, if_false, hlen, h2, if_true]

/-- Claim C9: on a successful fetch, `fetch_valorant_league_schedule` returns
the normalized matches sorted ascending by start time with a stable sort:
the records are the per-match normalizations of a permutation of the
provider's match list that is pairwise-ascending in the `scheduledAt` key,
and for every key value the matches carrying it appear in exactly the
provider-given relative order (ties are preserved). -/
theorem C9_sorted_stable (league key : String) (ids : List String) (body d : JVal)
    (ms : List JVal)
    (hk : resolve_league_alias league = some key)
    (hi : VALORANT_LEAGUE_IDS.lookup key = some ids)
    (hne : ids.isEmpty = false)
    (hd : pyGetD body "data" (.obj []) = .ok d)
    (hmb : pyGet d "matchesBySeries" = .ok (.arr ms))
    (hnil : ms.isEmpty = false)
    (hobj : ∀ m ∈ ms, m.isObj = true)
    (hstr : ∀ m ∈ ms, (objGet m "scheduledAt").isStr = true)
    (hnorm : ∀ m ∈ ms, exOk (valorantNormalize m) = true) :
    ∃ sortedMs recs,
      List.Perm sortedMs ms ∧
      List.Pairwise (fun a b => schedLe a b = true) sortedMs ∧
      (∀ k0 : String, sortedMs.filter (fun m => schedKeyStr m == k0)
          = ms.filter (fun m => schedKeyStr m == k0)) ∧
      valorantAll sortedMs = .ok recs ∧
      fetch_valorant_league_schedule league ⟨200, body⟩ = .ok (some recs) := by
  have hsort : pySortedBySched ms = .ok (stableSort schedLe ms) := pySorted_eval hobj hstr
  have hperm : List.Perm (stableSort schedLe ms) ms := stableSort_perm _ _
  have hnorm' : ∀ m ∈ stableSort schedLe ms, exOk (valorantNormalize m) = true :=
    fun m hm => hnorm m (hperm.mem_iff.mp hm)
  obtain ⟨recs, hrecs⟩ := valorantAll_ok hnorm'
  have htr : (JVal.arr ms).truthy = true := by
    cases ms with
    | nil => cases hnil
    | cons a as => rfl
  refine ⟨stableSort schedLe ms, recs, hperm,
    pairwise_stableSort schedLe_trans schedLe_total ms,
    fun k0 => filter_stableSort ms k0, hrecs, ?_⟩
  simp only [fetch_valorant_league_schedule, hk, hi, hne, Bool.false_eq_true, if_false,
    ne_eq, not_true_eq_false, bind, Except.bind, hd, hmb, htr, Bool.not_true, pyIter,
    hsort, hrecs, pure, Except.pure]

/-- Witness for C9: four raw matches with timestamps T2, T1, T1, T3 come back
normalized in the order T1, T1, T2, T3, and the two matches tied at T1 keep
the provider-given relative order (ids B, C, A, D). -/
theorem C9_witness :
    (∃ sortedMs recs,
      List.Perm sortedMs
        [.obj [("id", .str "A"), ("scheduledAt", .str "2025-03-02T10:00:00Z")],
         .obj [("id", .str "B"), ("scheduledAt", .str "2025-03-01T10:00:00Z")],
         .obj [("id", .str "C"), ("scheduledAt", .str "2025-03-01T10:00:00Z")],
         .obj [("id", .str "D"), ("scheduledAt", .str "2025-03-03T10:00:00Z")]] ∧
      List.Pairwise (fun a b => schedLe a b = true) sortedMs ∧
      (∀ k0 : String, sortedMs.filter (fun m => schedKeyStr m == k0)
          = [JVal.obj [("id", .str "A"), ("scheduledAt", .str "2025-03-02T10:00:00Z")],
             .obj [("id", .str "B"), ("scheduledAt", .str "2025-03-01T10:00:00Z")],
             .obj [("id", .str "C"), ("scheduledAt", .str "2025-03-01T10:00:00Z")],
             .obj [("id", .str "D"), ("scheduledAt", .str "2025-03-03T10:00:00Z")]].filter
              (fun m => schedKeyStr m == k0)) ∧
      valorantAll sortedMs = .ok recs ∧
      fetch_valorant_league_schedule "pacific"
        ⟨200, .obj [("data", .obj [("matchesBySeries", .arr
          [.obj [("id", .str "A"), ("scheduledAt", .str "2025-03-02T10:00:00Z")],
           .obj [("id", .str "B"), ("scheduledAt", .str "2025-03-01T10:00:00Z")],
           .obj [("id", .str "C"), ("scheduledAt", .str "2025-03-01T10:00:00Z")],
           .obj [("id", .str "D"), ("scheduledAt", .str "2025-03-03T10:00:00Z")]])])]⟩
        = .ok (some recs)) ∧
    (fetch_valorant_league_schedule "pacific"
        ⟨200, .obj [("data", .obj [("matchesBySeries", .arr
          [.obj [("id", .str "A"), ("scheduledAt", .str "2025-03-02T10:00:00Z")],
           .obj [("id", .str "B"), ("scheduledAt", .str "2025-03-01T10:00:00Z")],
           .obj [("id", .str "C"), ("scheduledAt", .str "2025-03-01T10:00:00Z")],
           .obj [("id", .str "D"), ("scheduledAt", .str "2025-03-03T10:00:00Z")]])])]⟩).map
        (Option.map (List.map (fun r => objGet r "matchId")))
      = .ok (some [.str "B", .str "C", .str "A", .str "D"]) :=
  ⟨C9_sorted_stable "pacific" "pacific" ["622", "590", "566"]
      (.obj [("data", .obj [("matchesBySeries", .arr
          [.obj [("id", .str "A"), ("scheduledAt", .str "2025-03-02T10:00:00Z")],
           .obj [("id", .str "B"), ("scheduledAt", .str "2025-03-01T10:00:00Z")],
           .obj [("id", .str "C"), ("scheduledAt", .str "2025-03-01T10:00:00Z")],
           .obj [("id", .str "D"), ("scheduledAt", .str "2025-03-03T10:00:00Z")]])])])
      (.obj [("matchesBySeries", .arr
          [.obj [("id", .str "A"), ("scheduledAt", .str "2025-03-02T10:00:00Z")],
           .obj [("id", .str "B"), ("scheduledAt", .str "2025-03-01T10:00:00Z")],
           .obj [("id", .str "C"), ("scheduledAt", .str "2025-03-01T10:00:00Z")],
           .obj [("id", .str "D"), ("scheduledAt", .str "2025-03-03T10:00:00Z")]])])
      [.obj [("id", .str "A"), ("scheduledAt", .str "2025-03-02T10:00:00Z")],
       .obj [("id", .str "B"), ("scheduledAt", .str "2025-03-01T10:00:00Z")],
       .obj [("id", .str "C"), ("scheduledAt", .str "2025-03-01T10:00:00Z")],
       .obj [("id", .str "D"), ("scheduledAt", .str "2025-03-03T10:00:00Z")]]
      rfl rfl rfl rfl rfl rfl (by decide) (by decide) (by decide),
   rfl⟩

end Sched
